import Mathlib

/-!
Verification of the DirtyJTAG SPI translation layer (`dirtyjtag_spi.c`).

The development is a shallow embedding of the driver:

* the wire constants (`CMD_*`, `SIG_*`) are taken verbatim from the two C
  enumerations;
* the USB bulk transport (libusb) is out of scope for the driver and is
  modelled at its interface by a `Transport` record indexed by the sequence
  number of the bulk call: the outcome of the n-th OUT transfer and the
  outcome plus delivered memory contents of the n-th IN transfer;
* `dirtyjtag_send` / `dirtyjtag_receive` embed the two helper functions,
  returning `0`/`transferred` on success and `-1` on failure exactly as the C
  does;
* `dirtyjtag_djtag1_spi_send_command` embeds the chunk loop.  Heap memory
  returned by `malloc` is uninitialized in C, so the initial contents of the
  two scratch buffers are explicit parameters (`txheap`, `rxheap`); the
  allocations themselves are assumed to succeed.  The result records the
  return value, the bytes copied to `readarr`, the exact list of frames
  passed to `dirtyjtag_send` in order, and the number of receive calls.
* the `frequency` option handling of `dirtyjtag_spi_init` is embedded as a
  pure parsing function together with the initialization command frame it
  produces; `strtoul` (libc, base 0) is modelled for strings made of digits
  with an optional `0`/`0x` prefix, which covers every input considered here
  (no leading whitespace or sign).

Bytes are modelled as `Nat`; the single place where the C narrows a wider
value into a `uint8_t` (the bit-count byte of a transfer frame) carries an
explicit `% 256`.
-/

/-! ### Wire constants (lines 42-63 of the source) -/

def CMD_STOP : Nat := 0x00

def CMD_INFO : Nat := 0x01

def CMD_FREQ : Nat := 0x02

def CMD_XFER : Nat := 0x03

def CMD_SETSIG : Nat := 0x04

def CMD_GETSIG : Nat := 0x05

def CMD_CLK : Nat := 0x06

def SIG_TCK : Nat := 1 <<< 1

def SIG_TDI : Nat := 1 <<< 2

def SIG_TDO : Nat := 1 <<< 3

def SIG_TMS : Nat := 1 <<< 4

def SIG_TRST : Nat := 1 <<< 5

def SIG_SRST : Nat := 1 <<< 6

/-- `static const int dirtyjtag_timeout = 100 * 10; /* 100 ms */` — the value
passed as the (millisecond) timeout argument of every
`libusb_bulk_transfer` call made by `dirtyjtag_send` and
`dirtyjtag_receive`. -/
def dirtyjtag_timeout : Nat := 100 * 10

/-! ### Transport model

The libusb transport is modelled by the outcome of each bulk call, indexed
by the call's sequence number `n` (within one driver entry point, the n-th
OUT transfer and the n-th IN transfer).  `recvBytes n` is the contents of
the 32-byte receive buffer after the n-th IN transfer; since the C stack
buffer is uninitialized before the call, this one field covers both the
bytes the device delivered and the residual garbage beyond `transferred`. -/

structure Transport where
  sendRet : Nat → Int
  sendTransferred : Nat → Nat
  recvRet : Nat → Int
  recvTransferred : Nat → Nat
  recvBytes : Nat → List Nat

/-- Embedding of `dirtyjtag_send` (lines 65-84): `-1` when the bulk transfer
fails or moves fewer bytes than requested, `0` otherwise.  `n` is the
sequence number of this OUT transfer, `len` the packet length. -/
def dirtyjtag_send (t : Transport) (n : Nat) (len : Nat) : Int :=
  if t.sendRet n ≠ 0 then -1
  else if (t.sendTransferred n : Int) ≠ (len : Int) then -1
  else 0

/-- Embedding of `dirtyjtag_receive` (lines 86-106): `-1` when the bulk
transfer fails or (when `expected ≠ -1`) moves a number of bytes other than
`expected`; the transferred count otherwise. -/
def dirtyjtag_receive (t : Transport) (n : Nat) (buffer_len : Nat) (expected : Int) : Int :=
  if t.recvRet n ≠ 0 then -1
  else if expected ≠ -1 ∧ (t.recvTransferred n : Int) ≠ expected then -1
  else (t.recvTransferred n : Int)

/-! ### The DJTAG1 chunk loop -/

/-- Chunk length computed at lines 142-146: `len % 30` for the last chunk
when the remainder is non-zero, `30` otherwise. -/
def txnSize (len num_xfer i : Nat) : Nat :=
  if i = num_xfer - 1 ∧ len % 30 ≠ 0 then len % 30 else 30

/-- The 32-byte `command_buffer` of lines 140-148: zero-initialized except
byte 0 (`CMD_XFER`), byte 1 (`txn_size*8`, narrowed to `uint8_t`), and the
`txn_size` chunk bytes copied to offset 2. -/
def cmdXferFrame (txn_size : Nat) (chunk : Nat → Nat) : List Nat :=
  CMD_XFER :: (txn_size * 8) % 256 ::
    ((List.range 30).map fun k => if k < txn_size then chunk k else 0)

/-- `tms_reset_buffer` of lines 158-164. -/
def tmsResetBuffer : List Nat := [CMD_SETSIG, SIG_TMS, SIG_TMS, CMD_STOP]

/-- Contents of `tx_buf` after the `memcpy` of line 138: the first
`writecnt` bytes come from `writearr`, the rest of the allocation keeps
whatever `malloc` returned (`txheap`). -/
def txBuf (writecnt : Nat) (writearr : List Nat) (txheap : Nat → Nat) : Nat → Nat :=
  fun j => if j < writecnt then writearr.getD j 0 else txheap j

/-- One iteration of the loop at lines 139-152, acting on the pair
(`rx_buf` contents, frames sent so far).  The C discards the results of
`dirtyjtag_send` and `dirtyjtag_receive`, so the two calls are recorded but
do not influence the state. -/
def chunkStep (t : Transport) (tx_buf : Nat → Nat) (len num_xfer : Nat)
    (acc : (Nat → Nat) × List (List Nat)) (i : Nat) : (Nat → Nat) × List (List Nat) :=
  let ts := txnSize len num_xfer i
  let frame := cmdXferFrame ts fun k => tx_buf (30 * i + k)
  let _sret := dirtyjtag_send t i frame.length
  let _rret := dirtyjtag_receive t i 32 32
  let rx := fun p =>
    if 30 * i ≤ p ∧ p < 30 * i + ts then (t.recvBytes i).getD (p - 30 * i) 0 else acc.1 p
  (rx, acc.2 ++ [frame])

/-- Result of one `dirtyjtag_djtag1_spi_send_command` call: the C return
value, the bytes copied into `readarr`, the frames handed to
`dirtyjtag_send` in order, and the number of `dirtyjtag_receive` calls. -/
structure SpiResult where
  ret : Int
  readarr : List Nat
  sends : List (List Nat)
  recvCount : Nat
  deriving Repr, DecidableEq

/-- Embedding of `dirtyjtag_djtag1_spi_send_command` (lines 121-168).
`txheap`/`rxheap` are the uninitialized contents of the two `malloc`
allocations (the allocations are assumed to succeed).  The loop results are
discarded by the C, so the function always returns 0 and unconditionally
sends `tms_reset_buffer` after the chunks. -/
def dirtyjtag_djtag1_spi_send_command (t : Transport) (txheap rxheap : Nat → Nat)
    (writecnt readcnt : Nat) (writearr : List Nat) : SpiResult :=
  let max_xfer_size := 30
  let len := writecnt + readcnt
  let num_xfer := (len + max_xfer_size - 1) / max_xfer_size
  let tx_buf := txBuf writecnt writearr txheap
  let st := (List.range num_xfer).foldl (chunkStep t tx_buf len num_xfer) (rxheap, [])
  let readarr := (List.range readcnt).map fun j => st.1 (writecnt + j)
  let _rstret := dirtyjtag_send t num_xfer tmsResetBuffer.length
  { ret := 0
    readarr := readarr
    sends := st.2 ++ [tmsResetBuffer]
    recvCount := num_xfer }

/-! ### Frequency option parsing (`dirtyjtag_spi_init`, lines 233-305) -/

/-- Value of one character as a digit under `base`, if valid. -/
def digitVal (base : Nat) (c : Char) : Option Nat :=
  let d :=
    if '0' ≤ c ∧ c ≤ '9' then some (c.toNat - '0'.toNat)
    else if 'a' ≤ c ∧ c ≤ 'f' then some (c.toNat - 'a'.toNat + 10)
    else if 'A' ≤ c ∧ c ≤ 'F' then some (c.toNat - 'A'.toNat + 10)
    else none
  match d with
  | some v => if v < base then some v else none
  | none => none

/-- Longest digit prefix under `base`: accumulated value and number of
characters consumed. -/
def parseDigits (base : Nat) : List Char → Nat → Nat × Nat
  | [], acc => (acc, 0)
  | c :: cs, acc =>
    match digitVal base c with
    | some d =>
      let r := parseDigits base cs (acc * base + d)
      (r.1, r.2 + 1)
    | none => (acc, 0)

/-- Model of C `strtoul(s, &end, 0)` on strings without leading whitespace
or sign: `0x`/`0X` prefix selects base 16, a leading `0` base 8, otherwise
base 10.  Returns (value, characters consumed). -/
def strtoul0 (cs : List Char) : Nat × Nat :=
  match cs with
  | '0' :: x :: rest =>
    if x = 'x' ∨ x = 'X' then
      match rest with
      | c :: _ =>
        match digitVal 16 c with
        | some _ => let r := parseDigits 16 rest 0; (r.1, r.2 + 2)
        | none => (0, 1)
      | [] => (0, 1)
    else
      let r := parseDigits 8 (x :: rest) 0
      (r.1, r.2 + 1)
  | _ => parseDigits 10 cs 0

/-- Case-insensitive string equality (`strcasecmp(..) == 0`). -/
def strcaseeq (a b : List Char) : Bool :=
  a.map Char.toLower == b.map Char.toLower

/-- Embedding of the `frequency` parameter validation of
`dirtyjtag_spi_init` (lines 236-292): `none` when the function rejects the
value and returns 1 before any transport call, `some khz` when it falls
through to the command frame with `freq` divided down to kilohertz.
`strtoul` overflow (`errno == ERANGE`) is modelled by the value exceeding
`ULONG_MAX`. -/
def parseFrequencyParam (s : String) : Option Nat :=
  let cs := s.toList
  let n := cs.length
  let r := strtoul0 cs
  let v := r.1
  let u := r.2
  if 2 ^ 64 ≤ v then none
  else
    let fOpt : Option Nat :=
      if 0 < u ∧ u < n then
        if u + 3 < n then none
        else if u + 2 = n then
          if strcaseeq (cs.drop u) ['h', 'z'] then some v else none
        else if u + 3 = n then
          if strcaseeq (cs.drop u) ['k', 'h', 'z'] then some (v * 1000)
          else if strcaseeq (cs.drop u) ['m', 'h', 'z'] then some (v * 1000000)
          else none
        else none
      else some v
    match fOpt with
    | none => none
    | some f =>
      if f = 0 then none
      else if f < 1000 then none
      else if 1000 * 65535 < f then none
      else some (f / 1000)

/-- Frequency resolved by `dirtyjtag_spi_init`: default 100 kHz when the
option is absent, otherwise the validated parameter. -/
def dirtyjtag_init_freq (param : Option String) : Option Nat :=
  match param with
  | none => some 100
  | some s => parseFrequencyParam s

/-- The initialization burst of lines 295-305, or `none` when validation
rejected the frequency before the transport send. -/
def dirtyjtag_init_commands (param : Option String) : Option (List Nat) :=
  match dirtyjtag_init_freq param with
  | none => none
  | some freq =>
    some [CMD_SETSIG,
      SIG_TDI ||| SIG_TMS ||| SIG_TCK ||| SIG_SRST ||| SIG_TRST,
      SIG_SRST ||| SIG_TRST ||| SIG_TMS,
      CMD_FREQ, (freq >>> 8) &&& 0xFF, freq &&& 0xFF,
      CMD_STOP]

/-! ### Concrete transports and heaps for witnesses -/

/-- Heap whose every byte is 0. -/
def zeroHeap : Nat → Nat := fun _ => 0

/-- Heap whose every byte is 7 (one possible content of uninitialized
memory). -/
def sevenHeap : Nat → Nat := fun _ => 7

/-- A transport on which every call succeeds and every reply is 32 zero
bytes. -/
def okTransport : Transport :=
  { sendRet := fun _ => 0
    sendTransferred := fun _ => 32
    recvRet := fun _ => 0
    recvTransferred := fun _ => 32
    recvBytes := fun _ => List.replicate 32 0 }

/-- A transport whose n-th reply frame holds the bytes `64*n + k`. -/
def varTransport : Transport :=
  { sendRet := fun _ => 0
    sendTransferred := fun _ => 32
    recvRet := fun _ => 0
    recvTransferred := fun _ => 32
    recvBytes := fun n => (List.range 32).map fun k => 64 * n + k }

/-- A transport whose IN transfers complete without error but deliver only
5 of the 32 expected bytes (a short read). -/
def shortTransport : Transport :=
  { sendRet := fun _ => 0
    sendTransferred := fun _ => 32
    recvRet := fun _ => 0
    recvTransferred := fun _ => 5
    recvBytes := fun _ => List.replicate 32 0 }

/-! ### Characterization of the chunk loop -/

theorem chunkStep_fst (t : Transport) (tx : Nat → Nat) (len nx : Nat)
    (acc : (Nat → Nat) × List (List Nat)) (i p : Nat) :
    (chunkStep t tx len nx acc i).1 p =
      if 30 * i ≤ p ∧ p < 30 * i + txnSize len nx i
      then (t.recvBytes i).getD (p - 30 * i) 0 else acc.1 p := rfl

theorem chunkStep_snd (t : Transport) (tx : Nat → Nat) (len nx : Nat)
    (acc : (Nat → Nat) × List (List Nat)) (i : Nat) :
    (chunkStep t tx len nx acc i).2 =
      acc.2 ++ [cmdXferFrame (txnSize len nx i) fun k => tx (30 * i + k)] := rfl

theorem txnSize_le_30 (len nx i : Nat) : txnSize len nx i ≤ 30 := by
  unfold txnSize
  split <;> omega

theorem txnSize_pos (len nx i : Nat) : 1 ≤ txnSize len nx i := by
  unfold txnSize
  split <;> omega

/-- Chunk `m` of a transaction of total length `len` covers exactly the byte
positions `[30*m, 30*m + txn_size)`, which stay inside `[0, len)` and meet
the remaining chunks exactly. -/
theorem txnSize_cover (len m : Nat) (hm : m + 1 ≤ (len + 30 - 1) / 30) :
    30 * m + txnSize len ((len + 30 - 1) / 30) m ≤ len ∧
    (m + 1 = (len + 30 - 1) / 30 → 30 * m + txnSize len ((len + 30 - 1) / 30) m = len) ∧
    (m + 1 < (len + 30 - 1) / 30 → txnSize len ((len + 30 - 1) / 30) m = 30) := by
  unfold txnSize
  split <;> omega

/-- The frames accumulated after the first `m` loop iterations, in chunk
order. -/
theorem chunkLoop_sends (t : Transport) (tx rxh : Nat → Nat) (len nx m : Nat) :
    ((List.range m).foldl (chunkStep t tx len nx) (rxh, [])).2 =
      (List.range m).map fun i => cmdXferFrame (txnSize len nx i) fun k => tx (30 * i + k) := by
  induction m with
  | zero => rfl
  | succ m ih =>
    rw [List.range_succ, List.foldl_append, List.map_append]
    show (chunkStep t tx len nx ((List.range m).foldl (chunkStep t tx len nx) (rxh, [])) m).2 = _
    rw [chunkStep_snd, ih]
    rfl

/-- The contents of `rx_buf` after the first `m` loop iterations: positions
below `min (30*m) len` hold the reply byte for that stream position, the
rest still holds the uninitialized allocation. -/
theorem chunkLoop_rx (t : Transport) (tx rxh : Nat → Nat) (len m : Nat)
    (hm : m ≤ (len + 30 - 1) / 30) (p : Nat) :
    ((List.range m).foldl (chunkStep t tx len ((len + 30 - 1) / 30)) (rxh, [])).1 p =
      if p < 30 * m ∧ p < len then (t.recvBytes (p / 30)).getD (p % 30) 0 else rxh p := by
  induction m with
  | zero => simp
  | succ m ih =>
    have hm' : m ≤ (len + 30 - 1) / 30 := Nat.le_of_succ_le hm
    have hcov := txnSize_cover len m hm
    have hts30 := txnSize_le_30 len ((len + 30 - 1) / 30) m
    rw [List.range_succ, List.foldl_append]
    show (chunkStep t tx len ((len + 30 - 1) / 30)
        ((List.range m).foldl (chunkStep t tx len ((len + 30 - 1) / 30)) (rxh, [])) m).1 p = _
    rw [chunkStep_fst, ih hm']
    have hor : 30 * m + txnSize len ((len + 30 - 1) / 30) m = len ∨
        txnSize len ((len + 30 - 1) / 30) m = 30 := by
      rcases eq_or_lt_of_le hm with h | h
      · exact Or.inl (hcov.2.1 h)
      · exact Or.inr (hcov.2.2 h)
    by_cases hin : 30 * m ≤ p ∧ p < 30 * m + txnSize len ((len + 30 - 1) / 30) m
    · rw [if_pos hin]
      have hp1 : p / 30 = m := by omega
      have hp2 : p % 30 = p - 30 * m := by omega
      have hcond : p < 30 * (m + 1) ∧ p < len := by
        constructor
        · omega
        · omega
      rw [if_pos hcond, hp1, hp2]
    · rw [if_neg hin]
      by_cases hold : p < 30 * m ∧ p < len
      · rw [if_pos hold, if_pos (show p < 30 * (m + 1) ∧ p < len by omega)]
      · rw [if_neg hold, if_neg (show ¬(p < 30 * (m + 1) ∧ p < len) by omega)]

/-! ### Projections of `dirtyjtag_djtag1_spi_send_command` -/

theorem send_command_ret (t : Transport) (txh rxh : Nat → Nat) (w r : Nat) (arr : List Nat) :
    (dirtyjtag_djtag1_spi_send_command t txh rxh w r arr).ret = 0 := rfl

theorem send_command_recvCount (t : Transport) (txh rxh : Nat → Nat) (w r : Nat)
    (arr : List Nat) :
    (dirtyjtag_djtag1_spi_send_command t txh rxh w r arr).recvCount =
      (w + r + 30 - 1) / 30 := rfl

/-- The complete list of frames one call hands to `dirtyjtag_send`: the
transfer frames in chunk order, then `tms_reset_buffer`. -/
theorem send_command_sends (t : Transport) (txh rxh : Nat → Nat) (w r : Nat) (arr : List Nat) :
    (dirtyjtag_djtag1_spi_send_command t txh rxh w r arr).sends =
      ((List.range ((w + r + 30 - 1) / 30)).map fun i =>
        cmdXferFrame (txnSize (w + r) ((w + r + 30 - 1) / 30) i)
          fun k => txBuf w arr txh (30 * i + k)) ++ [tmsResetBuffer] := by
  show (((List.range ((w + r + 30 - 1) / 30)).foldl
      (chunkStep t (txBuf w arr txh) (w + r) ((w + r + 30 - 1) / 30)) (rxh, [])).2
      ++ [tmsResetBuffer]) = _
  rw [chunkLoop_sends]

/-- The bytes copied to `readarr`. -/
theorem send_command_readarr (t : Transport) (txh rxh : Nat → Nat) (w r : Nat) (arr : List Nat) :
    (dirtyjtag_djtag1_spi_send_command t txh rxh w r arr).readarr =
      (List.range r).map fun j =>
        if w + j < 30 * ((w + r + 30 - 1) / 30) ∧ w + j < w + r
        then (t.recvBytes ((w + j) / 30)).getD ((w + j) % 30) 0 else rxh (w + j) := by
  show ((List.range r).map fun j =>
      ((List.range ((w + r + 30 - 1) / 30)).foldl
        (chunkStep t (txBuf w arr txh) (w + r) ((w + r + 30 - 1) / 30)) (rxh, [])).1 (w + j)) = _
  exact List.map_congr_left fun j hj =>
    chunkLoop_rx t (txBuf w arr txh) rxh (w + r) _ (le_refl _) (w + j)

/-- Frame `i` of a call, for `i` below the chunk count. -/
theorem send_command_frame (t : Transport) (txh rxh : Nat → Nat) (w r : Nat) (arr : List Nat)
    (i : Nat) (hi : i < (w + r + 30 - 1) / 30) :
    (dirtyjtag_djtag1_spi_send_command t txh rxh w r arr).sends.getD i [] =
      cmdXferFrame (txnSize (w + r) ((w + r + 30 - 1) / 30) i)
        fun k => txBuf w arr txh (30 * i + k) := by
  rw [send_command_sends]
  have h1 : i < ((List.range ((w + r + 30 - 1) / 30)).map fun i2 =>
      cmdXferFrame (txnSize (w + r) ((w + r + 30 - 1) / 30) i2)
        fun k => txBuf w arr txh (30 * i2 + k)).length := by
    rw [List.length_map, List.length_range]
    exact hi
  rw [List.getD_append _ _ _ i h1, List.getD_eq_getElem _ _ h1, List.getElem_map,
    List.getElem_range]

/-- The frame after all the transfer frames is `tms_reset_buffer`. -/
theorem send_command_frame_last (t : Transport) (txh rxh : Nat → Nat) (w r : Nat)
    (arr : List Nat) :
    (dirtyjtag_djtag1_spi_send_command t txh rxh w r arr).sends.getD
      ((w + r + 30 - 1) / 30) [] = tmsResetBuffer := by
  rw [send_command_sends]
  rw [List.getD_append_right]
  · simp
  · rw [List.length_map, List.length_range]

/-! ### Frame layout lemmas -/

theorem cmdXferFrame_length (ts : Nat) (c : Nat → Nat) : (cmdXferFrame ts c).length = 32 := by
  simp [cmdXferFrame]

theorem cmdXferFrame_getD_payload (ts : Nat) (c : Nat → Nat) (k : Nat) (hk : k < 30) :
    (cmdXferFrame ts c).getD (2 + k) 0 = if k < ts then c k else 0 := by
  have h2 : 2 + k = (k + 1) + 1 := by omega
  unfold cmdXferFrame
  rw [h2, List.getD_cons_succ, List.getD_cons_succ]
  have hlen : k < ((List.range 30).map fun k2 => if k2 < ts then c k2 else 0).length := by
    simp
    omega
  rw [List.getD_eq_getElem _ _ hlen, List.getElem_map, List.getElem_range]

/-- An auxiliary chunk-content function used by witnesses. -/
def someChunk : Nat → Nat := fun k => k + 5

/-! ### Claim C1 — chunking -/

/-- Claim C1: for every write buffer of length `w` and read count `r` with
`w + r > 0`, one `dirtyjtag_djtag1_spi_send_command` call issues exactly
`ceil((w+r)/30)` transfer frames, in increasing chunk order, and the frame
of chunk `i` declares logical length 30 except the last, which declares
`(w+r) mod 30` when that remainder is non-zero and 30 otherwise (the
bit-count byte is 8 times the logical length); the frame after them is the
(non-transfer) reset frame. -/
theorem dirtyjtag_chunking (t : Transport) (txh rxh : Nat → Nat) (w r : Nat) (arr : List Nat)
    (h : 0 < w + r) :
    (dirtyjtag_djtag1_spi_send_command t txh rxh w r arr).sends.length =
      (w + r + 30 - 1) / 30 + 1 ∧
    ((dirtyjtag_djtag1_spi_send_command t txh rxh w r arr).sends.getD
      ((w + r + 30 - 1) / 30) []).getD 0 0 = CMD_SETSIG ∧
    ∀ i : Nat, i < (w + r + 30 - 1) / 30 →
      ((dirtyjtag_djtag1_spi_send_command t txh rxh w r arr).sends.getD i []).getD 0 0 =
        CMD_XFER ∧
      ((dirtyjtag_djtag1_spi_send_command t txh rxh w r arr).sends.getD i []).getD 1 0 =
        8 * (if i = (w + r + 30 - 1) / 30 - 1 ∧ (w + r) % 30 ≠ 0 then (w + r) % 30 else 30) := by
  refine ⟨?_, ?_, ?_⟩
  · rw [send_command_sends]
    simp
  · rw [send_command_frame_last]
    rfl
  · intro i hi
    rw [send_command_frame t txh rxh w r arr i hi]
    constructor
    · rfl
    · have hb : (cmdXferFrame (txnSize (w + r) ((w + r + 30 - 1) / 30) i)
          fun k => txBuf w arr txh (30 * i + k)).getD 1 0 =
          (txnSize (w + r) ((w + r + 30 - 1) / 30) i * 8) % 256 := rfl
      rw [hb]
      by_cases hc : i = (w + r + 30 - 1) / 30 - 1 ∧ (w + r) % 30 ≠ 0
      · rw [if_pos hc]
        unfold txnSize
        rw [if_pos hc]
        omega
      · rw [if_neg hc]
        unfold txnSize
        rw [if_neg hc]

theorem dirtyjtag_chunking_witness :
    ((dirtyjtag_djtag1_spi_send_command okTransport zeroHeap zeroHeap 1 0 [171]).sends.getD 0
      []).getD 1 0 = 8 := by
  have h := (dirtyjtag_chunking okTransport zeroHeap zeroHeap 1 0 [171] (by decide)).2.2 0
    (by decide)
  rw [h.2]
  decide

/-! ### Claim C2 — reassembly -/

/-- Claim C2: when every reply frame is received successfully, the read
buffer equals bytes `[w, w+r)` of the stream reassembled by placing the
first `txn_size` bytes of chunk `i`'s reply at offset `30*i` (position `p`
of that stream is byte `p mod 30` of reply `p / 30`). -/
theorem dirtyjtag_reassembly (t : Transport) (txh rxh : Nat → Nat) (w r : Nat) (arr : List Nat)
    (hrecv : ∀ n, t.recvRet n = 0 ∧ t.recvTransferred n = 32)
    (hframes : ∀ n, (t.recvBytes n).length = 32) :
    (dirtyjtag_djtag1_spi_send_command t txh rxh w r arr).readarr =
      (List.range r).map fun j => (t.recvBytes ((w + j) / 30)).getD ((w + j) % 30) 0 := by
  rw [send_command_readarr]
  refine List.map_congr_left fun j hj => ?_
  have hj2 : j < r := List.mem_range.mp hj
  have hc : w + j < 30 * ((w + r + 30 - 1) / 30) ∧ w + j < w + r := by omega
  rw [if_pos hc]

theorem dirtyjtag_reassembly_witness :
    (dirtyjtag_djtag1_spi_send_command varTransport zeroHeap zeroHeap 29 2
      (List.replicate 29 5)).readarr = [29, 64] := by
  rw [dirtyjtag_reassembly varTransport zeroHeap zeroHeap 29 2 (List.replicate 29 5)
    (fun n => ⟨rfl, rfl⟩) (fun n => by simp [varTransport])]
  decide

/-! ### Claim C3 — transport errors are not propagated -/

/-- Claim C3 fails on the code: on a transport whose reply moves only 5 of
the 32 expected bytes, `dirtyjtag_receive` reports the failure (`-1`), yet
`dirtyjtag_djtag1_spi_send_command` — which discards the results of both
helpers — still performs its receive during the loop and returns 0
(success) instead of aborting with an error. -/
theorem dirtyjtag_error_ignored :
    dirtyjtag_receive shortTransport 0 32 32 = -1 ∧
    (dirtyjtag_djtag1_spi_send_command shortTransport zeroHeap zeroHeap 1 0 [171]).recvCount =
      1 ∧
    (dirtyjtag_djtag1_spi_send_command shortTransport zeroHeap zeroHeap 1 0 [171]).ret = 0 := by
  decide

/-! ### Claim C4 — frequency validation -/

/-- Claim C4 as stated is false: the option value `100` is a bare number,
hence hertz, and 100 Hz falls below the 1 kHz minimum, so initialization
rejects it before the transport send instead of accepting it as 100 kHz. -/
theorem dirtyjtag_frequency_100_rejected :
    parseFrequencyParam "100" = none ∧ dirtyjtag_init_commands (some "100") = none := by
  decide

/-- Claim C4 amended: `0`, `70000000`, `5xyz` and also `100` are each
rejected before any transport call; `100khz` and `1mhz` are accepted,
resolve to 100 and 1000 kHz, and are encoded big-endian into the
frequency-set bytes of the initialization frame. -/
theorem dirtyjtag_frequency_validation :
    dirtyjtag_init_commands (some "0") = none ∧
    dirtyjtag_init_commands (some "70000000") = none ∧
    dirtyjtag_init_commands (some "5xyz") = none ∧
    dirtyjtag_init_commands (some "100") = none ∧
    parseFrequencyParam "100khz" = some 100 ∧
    parseFrequencyParam "1mhz" = some 1000 ∧
    dirtyjtag_init_commands (some "100khz") =
      some [CMD_SETSIG, 118, 112, CMD_FREQ, 0, 100, CMD_STOP] ∧
    dirtyjtag_init_commands (some "1mhz") =
      some [CMD_SETSIG, 118, 112, CMD_FREQ, 3, 232, CMD_STOP] := by
  decide

/-! ### Claim C5 — degenerate transaction -/

/-- Claim C5 as stated is false: with `w = 0, r = 0` the call still performs
one transport send, the unconditional `tms_reset_buffer` frame. -/
theorem dirtyjtag_degenerate_still_sends :
    (dirtyjtag_djtag1_spi_send_command okTransport zeroHeap zeroHeap 0 0 []).sends ≠ [] ∧
    (dirtyjtag_djtag1_spi_send_command okTransport zeroHeap zeroHeap 0 0 []).sends.length =
      1 := by
  decide

/-- Claim C5 amended: with `w = 0, r = 0` the call sends zero transfer
frames, performs zero receives and returns success with an empty read
result, but still sends the terminating reset frame once. -/
theorem dirtyjtag_degenerate (t : Transport) (txh rxh : Nat → Nat) (arr : List Nat) :
    (dirtyjtag_djtag1_spi_send_command t txh rxh 0 0 arr).ret = 0 ∧
    (dirtyjtag_djtag1_spi_send_command t txh rxh 0 0 arr).readarr = [] ∧
    (dirtyjtag_djtag1_spi_send_command t txh rxh 0 0 arr).recvCount = 0 ∧
    (dirtyjtag_djtag1_spi_send_command t txh rxh 0 0 arr).sends = [tmsResetBuffer] :=
  ⟨rfl, rfl, rfl, rfl⟩

/-! ### Claim C6 — bytes on the wire at read positions -/

/-- Claim C6 as stated is false: the transmit scratch buffer is not zeroed
beyond the write bytes, so the wire bytes at read-region positions are
whatever the allocation contained — two different initial memory contents
produce two different frames for the same transaction. -/
theorem dirtyjtag_wire_bytes_counterexample :
    (((dirtyjtag_djtag1_spi_send_command okTransport zeroHeap zeroHeap 0 1 []).sends.getD 0
      []).getD 2 0 = 0) ∧
    (((dirtyjtag_djtag1_spi_send_command okTransport sevenHeap zeroHeap 0 1 []).sends.getD 0
      []).getD 2 0 = 7) := by
  decide

/-- Claim C6 amended: payload byte `k` of chunk `i`'s frame carries the
write byte when position `30*i + k` is below `w`, and otherwise the
uninitialized contents of the freshly allocated transmit buffer at that
position — zero filler is not guaranteed. -/
theorem dirtyjtag_wire_bytes (t : Transport) (txh rxh : Nat → Nat) (w r : Nat)
    (arr : List Nat) (hw : w ≤ arr.length) (i k : Nat)
    (hi : i < (w + r + 30 - 1) / 30)
    (hk : k < txnSize (w + r) ((w + r + 30 - 1) / 30) i) :
    ((dirtyjtag_djtag1_spi_send_command t txh rxh w r arr).sends.getD i []).getD (2 + k) 0 =
      if 30 * i + k < w then arr.getD (30 * i + k) 0 else txh (30 * i + k) := by
  rw [send_command_frame t txh rxh w r arr i hi]
  have hk30 : k < 30 := lt_of_lt_of_le hk (txnSize_le_30 _ _ _)
  rw [cmdXferFrame_getD_payload _ _ k hk30, if_pos hk]
  rfl

theorem dirtyjtag_wire_bytes_witness :
    ((dirtyjtag_djtag1_spi_send_command okTransport sevenHeap zeroHeap 1 2 [9]).sends.getD 0
      []).getD (2 + 0) 0 = 9 := by
  have h := dirtyjtag_wire_bytes okTransport sevenHeap zeroHeap 1 2 [9] (by decide) 0 0
    (by decide) (by decide)
  rw [h]
  decide

/-! ### Claim C7 — transfer frame layout -/

/-- Claim C7: for a chunk of logical length `ts ≤ 30` the encoded transfer
frame is exactly 32 bytes — byte 0 the transfer command identifier, byte 1
`ts * 8`, bytes `2..2+ts` the chunk bytes in order, all remaining bytes
zero. -/
theorem encode_transfer_spec (ts : Nat) (c : Nat → Nat) (h : ts ≤ 30) :
    (cmdXferFrame ts c).length = 32 ∧
    (cmdXferFrame ts c).getD 0 0 = CMD_XFER ∧
    (cmdXferFrame ts c).getD 1 0 = ts * 8 ∧
    (∀ k, k < ts → (cmdXferFrame ts c).getD (2 + k) 0 = c k) ∧
    (∀ k, ts ≤ k → k < 30 → (cmdXferFrame ts c).getD (2 + k) 0 = 0) := by
  refine ⟨cmdXferFrame_length ts c, rfl, ?_, ?_, ?_⟩
  · have hb : (cmdXferFrame ts c).getD 1 0 = (ts * 8) % 256 := rfl
    rw [hb]
    omega
  · intro k hk
    rw [cmdXferFrame_getD_payload ts c k (by omega), if_pos hk]
  · intro k hk1 hk2
    rw [cmdXferFrame_getD_payload ts c k hk2, if_neg (by omega)]

theorem encode_transfer_spec_witness :
    (cmdXferFrame 2 someChunk).getD 1 0 = 2 * 8 :=
  (encode_transfer_spec 2 someChunk (by decide)).2.2.1

/-! ### Claim C8 — terminating reset sequence -/

/-- Claim C8: every call that reaches the chunk loop sends the terminating
set-signal(TMS)/stop frame exactly once, after all transfer frames,
whatever the transport did. -/
theorem dirtyjtag_reset_sequence (t : Transport) (txh rxh : Nat → Nat) (w r : Nat)
    (arr : List Nat) :
    (dirtyjtag_djtag1_spi_send_command t txh rxh w r arr).sends.count tmsResetBuffer = 1 ∧
    (dirtyjtag_djtag1_spi_send_command t txh rxh w r arr).sends.getLast? =
      some tmsResetBuffer := by
  rw [send_command_sends]
  constructor
  · rw [List.count_append]
    have h0 : ((List.range ((w + r + 30 - 1) / 30)).map fun i =>
        cmdXferFrame (txnSize (w + r) ((w + r + 30 - 1) / 30) i)
          fun k => txBuf w arr txh (30 * i + k)).count tmsResetBuffer = 0 := by
      rw [List.count_eq_zero]
      intro hmem
      rcases List.mem_map.mp hmem with ⟨i, hi, heq⟩
      have hhead : (cmdXferFrame (txnSize (w + r) ((w + r + 30 - 1) / 30) i)
          fun k => txBuf w arr txh (30 * i + k)).getD 0 0 = tmsResetBuffer.getD 0 0 := by
        rw [heq]
      have h3 : (cmdXferFrame (txnSize (w + r) ((w + r + 30 - 1) / 30) i)
          fun k => txBuf w arr txh (30 * i + k)).getD 0 0 = CMD_XFER := rfl
      have h4 : tmsResetBuffer.getD 0 0 = CMD_SETSIG := rfl
      rw [h3, h4] at hhead
      exact absurd hhead (by decide)
    rw [h0, List.count_singleton]
    simp
  · exact List.getLast?_concat _

/-! ### Claim C9 — the bulk-transfer timeout -/

/-- Claim C9 fails on the code: the constant handed as the millisecond
timeout of every `libusb_bulk_transfer` call is `100 * 10 = 1000`, not the
100 ms announced by the comment right next to it. -/
theorem dirtyjtag_timeout_not_100ms :
    dirtyjtag_timeout = 1000 ∧ dirtyjtag_timeout ≠ 100 := by
  decide

/-! ### Claim C10 — txn_size bounds and the bit-count byte -/

/-- Claim C10: in a transaction with `w + r > 0`, every chunk's logical
length lies in `[1, 30]`, so the bit-count value `txn_size * 8` is at most
240 and the `uint8_t` frame byte stores it without wrap-around. -/
theorem dirtyjtag_txn_size_bounds (t : Transport) (txh rxh : Nat → Nat) (w r : Nat)
    (arr : List Nat) (i : Nat) (h : 0 < w + r) (hi : i < (w + r + 30 - 1) / 30) :
    1 ≤ txnSize (w + r) ((w + r + 30 - 1) / 30) i ∧
    txnSize (w + r) ((w + r + 30 - 1) / 30) i ≤ 30 ∧
    txnSize (w + r) ((w + r + 30 - 1) / 30) i * 8 ≤ 240 ∧
    ((dirtyjtag_djtag1_spi_send_command t txh rxh w r arr).sends.getD i []).getD 1 0 =
      txnSize (w + r) ((w + r + 30 - 1) / 30) i * 8 := by
  refine ⟨txnSize_pos _ _ _, txnSize_le_30 _ _ _, ?_, ?_⟩
  · have := txnSize_le_30 (w + r) ((w + r + 30 - 1) / 30) i
    omega
  · rw [send_command_frame t txh rxh w r arr i hi]
    have hb : (cmdXferFrame (txnSize (w + r) ((w + r + 30 - 1) / 30) i)
        fun k => txBuf w arr txh (30 * i + k)).getD 1 0 =
        (txnSize (w + r) ((w + r + 30 - 1) / 30) i * 8) % 256 := rfl
    rw [hb]
    have := txnSize_le_30 (w + r) ((w + r + 30 - 1) / 30) i
    omega

theorem dirtyjtag_txn_size_bounds_witness :
    ((dirtyjtag_djtag1_spi_send_command okTransport zeroHeap zeroHeap 1 0 [171]).sends.getD 0
      []).getD 1 0 = txnSize (1 + 0) ((1 + 0 + 30 - 1) / 30) 0 * 8 :=
  (dirtyjtag_txn_size_bounds okTransport zeroHeap zeroHeap 1 0 [171] 0 (by decide)
    (by decide)).2.2.2
